import Mathlib

/-!
Verification of the message classifier and formatter of
`webwhatsapi/objects/message.py` (WebWhatsapp-Wrapper).

The Python module is shallowly embedded below: raw JS records become a
structure `RawRecord`, each message class becomes a Lean structure with an
explicit constructor function (`Message.init`, `MediaMessage.init`,
`NotificationMessage.init`), and Python exceptions become an `Except PyErr`
result.  Attributes that Python sets only conditionally (`content`,
`safe_content`, `recipients`) are `Option` fields, `none` meaning the
attribute was never set, so that an `AttributeError` on access is visible
as a `.error .attributeError` result.  External collaborators that are not
part of the excerpt (the `Contact` class, the helper `safe_str`, the
driver's `get_contact_from_id`, the stdlib `mimetypes.guess_extension` and
`base64.b64decode`/`b64encode`) are modelled from their documented
behaviour, as noted on each definition.
-/

/-- Python exceptions that the embedded code can raise. -/
inductive PyErr where
  | attributeError
  | keyError
  | typeError
  | binasciiError
deriving DecidableEq, Repr

deriving instance DecidableEq for Except

/-- Modelled from the spec: a `Contact` ("identity reference") is an owned
copy constructed from the raw sender mapping; the excerpt only ever asks it
for a display name via `get_safe_name`.  The class itself lives outside the
excerpt, so it is reduced to the display name it yields. -/
structure Contact where
  name : String
deriving DecidableEq, Repr

/-- `Contact.get_safe_name`, modelled from the spec: returns the contact's
display name. -/
def Contact.get_safe_name (c : Contact) : String := c.name

/-- Modelled from the spec: the helper `safe_str` (outside the excerpt) is
the ASCII-stripping sanitization `val.encode('ascii', 'ignore')` — it drops
every non-ASCII character and keeps the rest. -/
def safe_str (s : String) : String :=
  String.mk (s.data.filter (fun c => c.toNat < 128))

/-- Modelled from the spec: `str.encode('ascii', 'ignore')` applied to the
notification subtype — drop non-ASCII characters ("ASCII-sanitized ...
non-ASCII bytes dropped"). -/
def asciiIgnore (s : String) : String :=
  String.mk (s.data.filter (fun c => c.toNat < 128))

/-- Python slice `s[0:n]`: the first `n` characters of `s` (all of `s` when
it is shorter). -/
def pySlice (s : String) (n : Nat) : String := String.mk (s.data.take n)

/-- One raw JS message record, with the keys the excerpt reads.  `sender`
is `none` when the raw field is the boolean `False` and `some` of the raw
sender data otherwise; `content` is `none` when the key is absent/`None`.
`filehash` is the optional `__x_filehash` key. -/
structure RawRecord where
  isMedia : Bool
  isNotification : Bool
  isMMS : Bool
  type : String
  sender : Option String
  timestamp : Int
  content : Option String
  size : Nat
  mime : String
  filehash : Option String
  subtype : String
  recipients : List String
deriving DecidableEq, Repr

/-- The concrete class chosen by `factory_message`. -/
inductive MessageVariant where
  | media
  | notification
  | mms
  | vcard
  | plain
deriving DecidableEq, Repr

/-- `factory_message(js_obj, driver)`: the if-chain of the factory,
returning which class is constructed. -/
def factory_message (r : RawRecord) : MessageVariant :=
  if r.isMedia then .media
  else if r.isNotification then .notification
  else if r.isMMS then .mms
  else if r.type = "vcard" ∨ r.type = "multi_vcard" then .vcard
  else .plain

/-- The `Message` base class after `__init__`.  `content` and
`safe_content` are `none` when the raw `content` was falsy, because the
Python constructor then never sets those attributes. -/
structure Message where
  sender : Option Contact
  timestamp : Int
  content : Option String
  safe_content : Option String
  js_obj : RawRecord
deriving DecidableEq, Repr

/-- `Message.__init__`: sender is the marker `False` (here `none`) exactly
when the raw sender is `False`, otherwise a `Contact` built from the raw
sender data; `content`/`safe_content` are set only when the raw content is
truthy, with `safe_content = safe_str(content[0:25]) + '...'`. -/
def Message.init (r : RawRecord) : Message where
  sender := r.sender.map Contact.mk
  timestamp := r.timestamp
  content :=
    match r.content with
    | some s => if s = "" then none else some s
    | none => none
  safe_content :=
    match r.content with
    | some s => if s = "" then none else some (safe_str (pySlice s 25) ++ "...")
    | none => none
  js_obj := r

/-- `Message.__repr__`: formats
`<Message - from {sender} at {timestamp}: {content}>`; accessing
`self.sender.get_safe_name()` when `sender` is the boolean `False`, or
`self.safe_content` when it was never set, raises `AttributeError`. -/
def Message.repr (m : Message) : Except PyErr String :=
  match m.sender with
  | none => Except.error PyErr.attributeError
  | some c =>
    match m.safe_content with
    | none => Except.error PyErr.attributeError
    | some content =>
      Except.ok ("<Message - from " ++ safe_str c.get_safe_name ++ " at "
        ++ toString m.timestamp ++ ": " ++ content ++ ">")

/-! ## Base64, modelling `base64.b64encode` / `base64.b64decode`

Bytes are `Nat`s below 256.  Encoding is the standard RFC 4648 alphabet
with `=` padding.  Decoding models CPython's default (non-validating)
`b64decode`: characters outside the alphabet and `=` are discarded first,
the remaining length must be a multiple of 4 (else `binascii.Error`), and
the surplus bits before the padding are ignored rather than checked. -/

/-- The base64 digit with index `n` (0–63). -/
def encodeChar (n : Nat) : Char :=
  if n < 26 then Char.ofNat (65 + n)
  else if n < 52 then Char.ofNat (97 + (n - 26))
  else if n < 62 then Char.ofNat (48 + (n - 52))
  else if n = 62 then '+'
  else '/'

/-- The index of a base64 digit, `none` for characters outside the
alphabet (including the padding character). -/
def decodeChar (c : Char) : Option Nat :=
  let n := c.toNat
  if 65 ≤ n ∧ n ≤ 90 then some (n - 65)
  else if 97 ≤ n ∧ n ≤ 122 then some (n - 97 + 26)
  else if 48 ≤ n ∧ n ≤ 57 then some (n - 48 + 52)
  else if n = 43 then some 62
  else if n = 47 then some 63
  else none

/-- A character `b64decode` keeps: a base64 digit or the padding `=`. -/
def legalChar (c : Char) : Bool := (decodeChar c).isSome || c == '='

/-- Encode a byte list three bytes at a time, padding the final group. -/
def encodeChunks : List Nat → List Char
  | b1 :: b2 :: b3 :: rest =>
    encodeChar (b1 / 4) :: encodeChar ((b1 % 4) * 16 + b2 / 16) ::
    encodeChar ((b2 % 16) * 4 + b3 / 64) :: encodeChar (b3 % 64) ::
    encodeChunks rest
  | [b1, b2] =>
    [encodeChar (b1 / 4), encodeChar ((b1 % 4) * 16 + b2 / 16),
     encodeChar ((b2 % 16) * 4), '=']
  | [b1] =>
    [encodeChar (b1 / 4), encodeChar ((b1 % 4) * 16), '=', '=']
  | [] => []

/-- `base64.b64encode` on a byte list, as a string. -/
def b64encode (bs : List Nat) : String := String.mk (encodeChunks bs)

/-- Decode four characters at a time; padding is legal only in the final
group, and the surplus bits it covers are discarded unchecked. -/
def decodeGroups : List Char → Option (List Nat)
  | [] => some []
  | c1 :: c2 :: c3 :: c4 :: rest =>
    match decodeChar c1, decodeChar c2 with
    | some d1, some d2 =>
      if c3 = '=' then
        if c4 = '=' ∧ rest = [] then some [d1 * 4 + d2 / 16]
        else none
      else
        match decodeChar c3 with
        | some d3 =>
          if c4 = '=' then
            if rest = [] then some [d1 * 4 + d2 / 16, (d2 % 16) * 16 + d3 / 4]
            else none
          else
            match decodeChar c4 with
            | some d4 =>
              (decodeGroups rest).map
                (fun bs => (d1 * 4 + d2 / 16) :: ((d2 % 16) * 16 + d3 / 4) ::
                  ((d3 % 4) * 64 + d4) :: bs)
            | none => none
        | none => none
    | _, _ => none
  | _ => none

/-- `base64.b64decode` on a string: discard foreign characters, then
decode in groups of four; `none` models `binascii.Error`. -/
def b64decode (s : String) : Option (List Nat) :=
  decodeGroups (s.data.filter legalChar)

/-! ## MediaMessage -/

/-- Modelled from the spec: the stdlib `mimetypes.guess_extension` — a
standard, partial MIME→extension lookup that returns no extension for an
unknown MIME type.  Only the mapping's shape matters to the claims; a few
common entries are listed. -/
def guess_extension (mime : String) : Option String :=
  if mime = "image/jpeg" then some ".jpg"
  else if mime = "image/png" then some ".png"
  else if mime = "image/gif" then some ".gif"
  else if mime = "video/mp4" then some ".mp4"
  else if mime = "audio/mpeg" then some ".mp3"
  else if mime = "application/pdf" then some ".pdf"
  else none

/-- The filename computation of `MediaMessage.__init__`.  `guessExt` is the
MIME→extension lookup and `instId` the ambient object identity `id(self)`
used by the fallback branch.  `''.join([h, extension])` with
`extension = None` raises `TypeError`, in both branches. -/
def deriveFilename (guessExt : String → Option String) (r : RawRecord)
    (instId : Nat) : Except PyErr String :=
  match guessExt r.mime, r.filehash with
  | some ext, some h => Except.ok (h ++ ext)
  | some ext, none => Except.ok (toString instId ++ ext)
  | none, _ => Except.error PyErr.typeError

/-- The `MediaMessage` class after `__init__`. -/
structure MediaMessage extends Message where
  type : String
  size : Nat
  mime : String
  filename : String
deriving DecidableEq, Repr

/-- `MediaMessage.__init__`: the base constructor, then `type`/`size`/
`mime` from the record, then the filename derivation (which can raise). -/
def MediaMessage.init (guessExt : String → Option String) (r : RawRecord)
    (instId : Nat) : Except PyErr MediaMessage :=
  match deriveFilename guessExt r instId with
  | Except.error e => Except.error e
  | Except.ok fn =>
    Except.ok { toMessage := Message.init r, type := r.type, size := r.size,
                mime := r.mime, filename := fn }

/-- `MediaMessage.save_media(path)`: `b64decode(self.content)` is written
to the file; the result here is the byte list written.  Accessing
`self.content` when it was never set raises `AttributeError`; an invalid
base64 payload raises `binascii.Error`. -/
def MediaMessage.save_media (m : MediaMessage) : Except PyErr (List Nat) :=
  match m.content with
  | none => Except.error PyErr.attributeError
  | some c =>
    match b64decode c with
    | some bs => Except.ok bs
    | none => Except.error PyErr.binasciiError

/-! ## NotificationMessage -/

/-- The `NotificationMessage` class after `__init__`.  `recipients` is
`none` when the raw list was empty (the attribute is then never set). -/
structure NotificationMessage extends Message where
  type : String
  subtype : String
  recipients : Option (List Contact)
deriving DecidableEq, Repr

/-- The list comprehension
`[self.driver.get_contact_from_id(x) for x in js_obj["recipients"]]`:
resolve each identifier in order, propagating the first failure.  `drv`
models the driver capability `get_contact_from_id(id) -> Identity`, which
may fail on an unknown id. -/
def resolveAll (drv : String → Except PyErr Contact) :
    List String → Except PyErr (List Contact)
  | [] => Except.ok []
  | x :: xs =>
    match drv x with
    | Except.error e => Except.error e
    | Except.ok c =>
      match resolveAll drv xs with
      | Except.error e => Except.error e
      | Except.ok cs => Except.ok (c :: cs)

/-- `NotificationMessage.__init__`: the base constructor, `type`, the
ASCII-sanitized `subtype`, then — only if the raw recipients list is
truthy (non-empty) — the resolved recipients list. -/
def NotificationMessage.init (drv : String → Except PyErr Contact)
    (r : RawRecord) : Except PyErr NotificationMessage :=
  match r.recipients with
  | [] =>
    Except.ok { toMessage := Message.init r, type := r.type,
                subtype := asciiIgnore r.subtype, recipients := none }
  | x :: xs =>
    match resolveAll drv (x :: xs) with
    | Except.error e => Except.error e
    | Except.ok cs =>
      Except.ok { toMessage := Message.init r, type := r.type,
                  subtype := asciiIgnore r.subtype, recipients := some cs }

/-- The `readable` taxonomy table of `NotificationMessage.__repr__` as a
lookup: `readable[type][subtype]`, `none` modelling a `KeyError`. -/
def readable (t s : String) : Option String :=
  if t = "call_log" then
    if s = "miss" then some "Missed Call" else none
  else if t = "e2e_notification" then
    if s = "encrypt" then some "Messages now Encrypted" else none
  else if t = "gp2" then
    if s = "create" then some "Created group"
    else if s = "add" then some "Added to group"
    else if s = "remove" then some "Removed from group"
    else if s = "leave" then some "Left the group"
    else none
  else none

/-- The sender clause of `NotificationMessage.__repr__`:
`"" if not self.sender else ("from " + str(safe_str(...)))`. -/
def senderClause : Option Contact → String
  | none => ""
  | some c => "from " ++ safe_str c.get_safe_name

/-- The recipients segment of `NotificationMessage.__repr__`: empty when
the attribute was never set, else the concatenated safe names. -/
def recipClause : Option (List Contact) → String
  | none => ""
  | some cs => String.join (cs.map (fun c => safe_str c.get_safe_name))

/-- `NotificationMessage.__repr__`: looks the phrase up in the closed
taxonomy table (raising `KeyError` when the pair is unmapped) and formats
`<NotificationMessage - {type} {recip} {sender} at {timestamp}>`. -/
def NotificationMessage.repr (m : NotificationMessage) :
    Except PyErr String :=
  match readable m.type m.subtype with
  | none => Except.error PyErr.keyError
  | some phrase =>
    Except.ok ("<NotificationMessage - " ++ phrase ++ " "
      ++ recipClause m.recipients ++ " " ++ senderClause m.sender
      ++ " at " ++ toString m.timestamp ++ ">")

/-! ## Concrete records and objects used in counterexamples and witnesses -/

/-- A media record: `isMedia` is true together with the other flags, a
content hash is present and the MIME type is known. -/
def rMediaA : RawRecord where
  isMedia := true
  isNotification := true
  isMMS := true
  type := "image"
  sender := some "Alice"
  timestamp := 1500000000
  content := some "QR=="
  size := 4
  mime := "image/jpeg"
  filehash := some "deadbeef"
  subtype := ""
  recipients := []

/-- A plain chat record: every flag false, ordinary text content. -/
def rPlain : RawRecord where
  isMedia := false
  isNotification := false
  isMMS := false
  type := "chat"
  sender := some "Bob"
  timestamp := 1500000001
  content := some "hello there"
  size := 0
  mime := ""
  filehash := none
  subtype := ""
  recipients := []

/-- The plain chat record with the raw `sender` field equal to the boolean
`False`. -/
def rFalse : RawRecord := { rPlain with sender := none }

/-- A group-creation notification record with two raw recipient ids and a
`False` sender. -/
def rNotif : RawRecord where
  isMedia := false
  isNotification := true
  isMMS := false
  type := "gp2"
  sender := none
  timestamp := 1500000002
  content := none
  size := 0
  mime := ""
  filehash := none
  subtype := "create"
  recipients := ["111@c.us", "222@c.us"]

/-- A media record whose MIME type has no extension in the standard
lookup. -/
def rBadMime : RawRecord :=
  { rMediaA with mime := "application/x-vnd-unknown", content := some "QQ==",
                 filehash := some "abc123" }

/-- A media record whose content is the canonical base64 encoding
`"TWFu"` of the bytes `[77, 97, 110]`. -/
def rB64 : RawRecord :=
  { rMediaA with content := some "TWFu", mime := "image/png",
                 filehash := some "ff00" }

/-- The plain chat record with `content = "A" * 30`. -/
def rA30 : RawRecord :=
  { rPlain with content := some "AAAAAAAAAAAAAAAAAAAAAAAAAAAAAA" }

/-- The `MediaMessage` that `MediaMessage.init` builds from `rMediaA`. -/
def mQR : MediaMessage where
  sender := some ⟨"Alice"⟩
  timestamp := 1500000000
  content := some "QR=="
  safe_content := some "QR==..."
  js_obj := rMediaA
  type := "image"
  size := 4
  mime := "image/jpeg"
  filename := "deadbeef.jpg"

/-- The `MediaMessage` that `MediaMessage.init` builds from `rB64`. -/
def mB64 : MediaMessage where
  sender := some ⟨"Alice"⟩
  timestamp := 1500000000
  content := some "TWFu"
  safe_content := some "TWFu..."
  js_obj := rB64
  type := "image"
  size := 4
  mime := "image/png"
  filename := "ff00.png"

/-- A driver whose `get_contact_from_id` resolves every id. -/
def drvOk : String → Except PyErr Contact := fun s => Except.ok ⟨s⟩

/-- A driver whose `get_contact_from_id` fails on every id. -/
def drvFail : String → Except PyErr Contact := fun _ => Except.error PyErr.keyError

/-- The `NotificationMessage` that `NotificationMessage.init` builds from
`rNotif` with the always-resolving driver. -/
def mNotif : NotificationMessage where
  sender := none
  timestamp := 1500000002
  content := none
  safe_content := none
  js_obj := rNotif
  type := "gp2"
  subtype := "create"
  recipients := some [⟨"111@c.us"⟩, ⟨"222@c.us"⟩]

/-- A notification object whose `(type, subtype)` pair is not in the
taxonomy table. -/
def mBadNotif : NotificationMessage := { mNotif with type := "call_log" }

/-! ## Shared lemmas -/

theorem decodeChar_encodeChar_fin :
    ∀ d : Fin 64, decodeChar (encodeChar d.val) = some d.val := by decide

theorem decodeChar_encodeChar {d : Nat} (h : d < 64) :
    decodeChar (encodeChar d) = some d :=
  decodeChar_encodeChar_fin ⟨d, h⟩

theorem decodeChar_pad : decodeChar '=' = none := by decide

theorem encodeChar_ne_pad {d : Nat} (h : d < 64) : encodeChar d ≠ '=' := by
  intro he
  have h2 := decodeChar_encodeChar h
  rw [he, decodeChar_pad] at h2
  exact Option.noConfusion h2

theorem legal_encodeChar {d : Nat} (h : d < 64) :
    legalChar (encodeChar d) = true := by
  simp [legalChar, decodeChar_encodeChar h]

theorem legal_pad : legalChar '=' = true := by decide

/-- Decoding inverts encoding on byte lists: the filter keeps every
produced character and each four-character group decodes back to the bytes
it came from. -/
theorem decodeGroups_encodeChunks :
    ∀ bs : List Nat, (∀ b ∈ bs, b < 256) →
      decodeGroups (List.filter legalChar (encodeChunks bs)) = some bs := by
  intro bs
  induction bs using encodeChunks.induct with
  | case1 b1 b2 b3 rest ih =>
    intro h
    have h1 : b1 < 256 := h b1 (by simp)
    have h2 : b2 < 256 := h b2 (by simp)
    have h3 : b3 < 256 := h b3 (by simp)
    have e1 := decodeChar_encodeChar (show b1 / 4 < 64 by omega)
    have e2 := decodeChar_encodeChar (show (b1 % 4) * 16 + b2 / 16 < 64 by omega)
    have e3 := decodeChar_encodeChar (show (b2 % 16) * 4 + b3 / 64 < 64 by omega)
    have e4 := decodeChar_encodeChar (show b3 % 64 < 64 by omega)
    have n3 := encodeChar_ne_pad (show (b2 % 16) * 4 + b3 / 64 < 64 by omega)
    have n4 := encodeChar_ne_pad (show b3 % 64 < 64 by omega)
    rw [encodeChunks]
    rw [List.filter_cons_of_pos (legal_encodeChar (by omega)),
        List.filter_cons_of_pos (legal_encodeChar (by omega)),
        List.filter_cons_of_pos (legal_encodeChar (by omega)),
        List.filter_cons_of_pos (legal_encodeChar (by omega))]
    rw [decodeGroups]
    simp only [e1, e2, e3, e4, ih (fun b hb => h b (by simp [hb]))]
    simp [n3, n4, List.cons.injEq]
    omega
  | case2 b1 b2 =>
    intro h
    have h1 : b1 < 256 := h b1 (by simp)
    have h2 : b2 < 256 := h b2 (by simp)
    have e1 := decodeChar_encodeChar (show b1 / 4 < 64 by omega)
    have e2 := decodeChar_encodeChar (show (b1 % 4) * 16 + b2 / 16 < 64 by omega)
    have e3 := decodeChar_encodeChar (show (b2 % 16) * 4 < 64 by omega)
    have n3 := encodeChar_ne_pad (show (b2 % 16) * 4 < 64 by omega)
    rw [encodeChunks]
    rw [List.filter_cons_of_pos (legal_encodeChar (by omega)),
        List.filter_cons_of_pos (legal_encodeChar (by omega)),
        List.filter_cons_of_pos (legal_encodeChar (by omega)),
        List.filter_cons_of_pos legal_pad, List.filter_nil]
    rw [decodeGroups]
    simp only [e1, e2, e3]
    simp [n3, List.cons.injEq]
    omega
  | case3 b1 =>
    intro h
    have h1 : b1 < 256 := h b1 (by simp)
    have e1 := decodeChar_encodeChar (show b1 / 4 < 64 by omega)
    have e2 := decodeChar_encodeChar (show (b1 % 4) * 16 < 64 by omega)
    rw [encodeChunks]
    rw [List.filter_cons_of_pos (legal_encodeChar (by omega)),
        List.filter_cons_of_pos (legal_encodeChar (by omega)),
        List.filter_cons_of_pos legal_pad,
        List.filter_cons_of_pos legal_pad, List.filter_nil]
    rw [decodeGroups]
    simp only [e1, e2]
    simp [List.cons.injEq]
    omega
  | case4 =>
    intro _
    rfl

/-- `b64decode` inverts `b64encode` on genuine byte lists. -/
theorem b64decode_b64encode {bs : List Nat} (h : ∀ b ∈ bs, b < 256) :
    b64decode (b64encode bs) = some bs := by
  rw [b64decode, b64encode]
  exact decodeGroups_encodeChunks bs h

/-- Shape of a successful `NotificationMessage.init`: the base fields come
from `Message.init`, `type`/`subtype` from the record, and `recipients` is
`none` for an empty raw list, else the successfully resolved list. -/
theorem notif_init_ok {drv : String → Except PyErr Contact} {r : RawRecord}
    {m : NotificationMessage}
    (hm : NotificationMessage.init drv r = Except.ok m) :
    ∃ recip,
      m = { toMessage := Message.init r, type := r.type,
            subtype := asciiIgnore r.subtype, recipients := recip } ∧
      ((recip = none ∧ r.recipients = []) ∨
       (∃ cs, recip = some cs ∧ resolveAll drv r.recipients = Except.ok cs ∧
         r.recipients ≠ [])) := by
  cases hrec : r.recipients with
  | nil =>
    rw [NotificationMessage.init, hrec] at hm
    exact ⟨none, (Except.ok.inj hm).symm, Or.inl ⟨rfl, rfl⟩⟩
  | cons x xs =>
    rw [NotificationMessage.init, hrec] at hm
    cases hres : resolveAll drv (x :: xs) with
    | error e =>
      simp only [hres] at hm
      exact absurd hm (by simp)
    | ok cs =>
      simp only [hres] at hm
      exact ⟨some cs, (Except.ok.inj hm).symm,
        Or.inr ⟨cs, rfl, rfl, by simp⟩⟩

/-- C1: `factory_message` classifies by strict first-match ordering on
`isMedia`, `isNotification`, `isMMS`, then the vcard types, with a plain
`Message` as the final fallback; in particular `isMedia = true` always
yields a `MediaMessage`. -/
theorem factory_first_match (r : RawRecord) :
    (r.isMedia = true → factory_message r = MessageVariant.media) ∧
    (r.isMedia = false → r.isNotification = true →
      factory_message r = MessageVariant.notification) ∧
    (r.isMedia = false → r.isNotification = false → r.isMMS = true →
      factory_message r = MessageVariant.mms) ∧
    (r.isMedia = false → r.isNotification = false → r.isMMS = false →
      (r.type = "vcard" ∨ r.type = "multi_vcard") →
      factory_message r = MessageVariant.vcard) ∧
    (r.isMedia = false → r.isNotification = false → r.isMMS = false →
      r.type ≠ "vcard" → r.type ≠ "multi_vcard" →
      factory_message r = MessageVariant.plain) := by
  refine ⟨?_, ?_, ?_, ?_, ?_⟩ <;> intros <;> simp_all [factory_message]

/-- Witness for C1: the media record (with every other flag also set) is
classified as media, and the flagless chat record as plain. -/
theorem factory_first_match_witness :
    (rMediaA.isMedia = true ∧ factory_message rMediaA = MessageVariant.media) ∧
    (rPlain.isMedia = false ∧ factory_message rPlain = MessageVariant.plain) :=
  ⟨⟨rfl, (factory_first_match rMediaA).1 rfl⟩,
   ⟨rfl, (factory_first_match rPlain).2.2.2.2 rfl rfl rfl (by decide) (by decide)⟩⟩

/-- C6: a record whose content is thirty `A`s gets a preview equal to the
first twenty-five characters followed by `...`, twenty-eight characters in
total. -/
theorem preview_truncation_30A (r : RawRecord)
    (h : r.content = some "AAAAAAAAAAAAAAAAAAAAAAAAAAAAAA") :
    (Message.init r).safe_content = some ("AAAAAAAAAAAAAAAAAAAAAAAAA" ++ "...") ∧
    ("AAAAAAAAAAAAAAAAAAAAAAAAA" ++ "..." : String).length = 28 := by
  constructor
  · simp only [Message.init, h]
    decide
  · decide

/-- Witness for C6 at the concrete record `rA30`. -/
theorem preview_truncation_30A_witness :
    rA30.content = some "AAAAAAAAAAAAAAAAAAAAAAAAAAAAAA" ∧
    (Message.init rA30).safe_content =
      some ("AAAAAAAAAAAAAAAAAAAAAAAAA" ++ "...") :=
  ⟨rfl, (preview_truncation_30A rA30 rfl).1⟩

/-- C7: with a content hash present, the filename derivation ignores the
instance identity — two constructions from the same record agree — and any
produced filename is the hash concatenated with the guessed extension. -/
theorem media_filename_deterministic (guessExt : String → Option String)
    (r : RawRecord) (hash : String) (hh : r.filehash = some hash)
    (i1 i2 : Nat) :
    deriveFilename guessExt r i1 = deriveFilename guessExt r i2 ∧
    (∀ ext, guessExt r.mime = some ext →
      deriveFilename guessExt r i1 = Except.ok (hash ++ ext)) := by
  constructor
  · cases hg : guessExt r.mime <;> simp [deriveFilename, hg, hh]
  · intro ext hg
    simp [deriveFilename, hg, hh]

/-- Witness for C7 at `rMediaA` with two different instance identities. -/
theorem media_filename_deterministic_witness :
    rMediaA.filehash = some "deadbeef" ∧
    guess_extension rMediaA.mime = some ".jpg" ∧
    deriveFilename guess_extension rMediaA 17 =
      deriveFilename guess_extension rMediaA 42 ∧
    deriveFilename guess_extension rMediaA 17 =
      Except.ok ("deadbeef" ++ ".jpg") :=
  ⟨rfl, by decide,
   (media_filename_deterministic guess_extension rMediaA "deadbeef" rfl 17 42).1,
   (media_filename_deterministic guess_extension rMediaA "deadbeef" rfl 17 42).2
     ".jpg" (by decide)⟩

/-- C9: a falsy raw content (absent or empty) leaves both `content` and
`safe_content` unset on the constructed plain message, and `__repr__` then
raises an `AttributeError`. -/
theorem falsy_content_attrs_absent (r : RawRecord)
    (h : r.content = none ∨ r.content = some "") :
    (Message.init r).content = none ∧
    (Message.init r).safe_content = none ∧
    Message.repr (Message.init r) = Except.error PyErr.attributeError := by
  have hc : (Message.init r).content = none := by
    rcases h with h | h <;> simp [Message.init, h]
  have hsc : (Message.init r).safe_content = none := by
    rcases h with h | h <;> simp [Message.init, h]
  refine ⟨hc, hsc, ?_⟩
  cases hs : (Message.init r).sender with
  | none => rw [Message.repr, hs]
  | some c => rw [Message.repr, hs, hsc]

/-- Witness for C9 at the notification record, whose content key is
absent. -/
theorem falsy_content_attrs_absent_witness :
    (rNotif.content = none ∨ rNotif.content = some "") ∧
    Message.repr (Message.init rNotif) = Except.error PyErr.attributeError :=
  ⟨Or.inl rfl, (falsy_content_attrs_absent rNotif (Or.inl rfl)).2.2⟩

/-- C10: for truthy content the preview is the sanitized first
`min 25 (length)` characters with `...` appended unconditionally, so every
preview ends in `...`. -/
theorem preview_unconditional_ellipsis (r : RawRecord) (s : String)
    (hc : r.content = some s) (hne : s ≠ "") :
    (Message.init r).safe_content =
      some (safe_str (pySlice s (min 25 s.length)) ++ "...") ∧
    (∀ p, (Message.init r).safe_content = some p → ∃ q, p = q ++ "...") := by
  have hmin : pySlice s (min 25 s.length) = pySlice s 25 := by
    rw [pySlice, pySlice]
    congr 1
    rw [List.take_eq_take]
    have : s.length = s.data.length := rfl
    omega
  constructor
  · simp only [Message.init, hc, hmin]
    simp [hne]
  · intro p hp
    simp only [Message.init, hc] at hp
    simp [hne] at hp
    exact ⟨safe_str (pySlice s 25), hp.symm⟩

/-- Witness for C10 at the plain chat record, whose content is shorter
than twenty-five characters. -/
theorem preview_unconditional_ellipsis_witness :
    rPlain.content = some "hello there" ∧ ("hello there" : String) ≠ "" ∧
    (Message.init rPlain).safe_content =
      some (safe_str (pySlice "hello there" (min 25 "hello there".length))
        ++ "...") :=
  ⟨rfl, by decide,
   (preview_unconditional_ellipsis rPlain "hello there" rfl (by decide)).1⟩

/-- C2 counterexample: for the plain chat record with a `False` sender the
constructed message's sender is the no-sender marker, but `__repr__` does
not succeed — it raises an `AttributeError`, because
`Message.__repr__` unconditionally calls `self.sender.get_safe_name()`. -/
theorem message_repr_fails_on_false_sender :
    (Message.init rFalse).sender = none ∧
    Message.repr (Message.init rFalse) = Except.error PyErr.attributeError := by
  decide

/-- C2 (amended): with a `False` raw sender the constructed message's
sender is the no-sender marker; `NotificationMessage.__repr__` renders an
empty sender segment (omitting the `from` clause) and succeeds whenever the
taxonomy lookup succeeds, but the plain `Message.__repr__` raises an
`AttributeError` instead of omitting the clause. -/
theorem false_sender_marker_and_formatting
    (drv : String → Except PyErr Contact) (r : RawRecord)
    (h : r.sender = none) :
    (Message.init r).sender = none ∧
    Message.repr (Message.init r) = Except.error PyErr.attributeError ∧
    (∀ m : NotificationMessage, NotificationMessage.init drv r = Except.ok m →
      senderClause m.sender = "" ∧
      ∀ p, readable m.type m.subtype = some p →
        NotificationMessage.repr m =
          Except.ok ("<NotificationMessage - " ++ p ++ " "
            ++ recipClause m.recipients ++ " " ++ "" ++ " at "
            ++ toString m.timestamp ++ ">")) := by
  have hsender : (Message.init r).sender = none := by simp [Message.init, h]
  refine ⟨hsender, ?_, ?_⟩
  · rw [Message.repr, hsender]
  · intro m hm
    obtain ⟨recip, hmeq, _⟩ := notif_init_ok hm
    have hms : m.sender = none := by rw [hmeq]; exact hsender
    have hclause : senderClause m.sender = "" := by rw [hms]; rfl
    refine ⟨hclause, ?_⟩
    intro p hp
    simp only [NotificationMessage.repr, hp, hclause]

/-- Witness for C2 (amended) at the concrete record `rFalse`. -/
theorem false_sender_marker_and_formatting_witness :
    rFalse.sender = none ∧
    (Message.init rFalse).sender = none ∧
    Message.repr (Message.init rFalse) = Except.error PyErr.attributeError :=
  ⟨rfl, (false_sender_marker_and_formatting drvOk rFalse rfl).1,
   (false_sender_marker_and_formatting drvOk rFalse rfl).2.1⟩

/-- C3: a notification with type `gp2` and subtype `create` renders a
summary containing the literal phrase `Created group`, and a
`(type, subtype)` pair outside the taxonomy table makes `__repr__` raise a
`KeyError` instead of rendering a blank phrase. -/
theorem notification_phrase_lookup (m : NotificationMessage) :
    (m.type = "gp2" → m.subtype = "create" →
      ∃ a b, NotificationMessage.repr m =
        Except.ok (a ++ "Created group" ++ b)) ∧
    (readable m.type m.subtype = none →
      NotificationMessage.repr m = Except.error PyErr.keyError) := by
  constructor
  · intro ht hs
    have hr : readable m.type m.subtype = some "Created group" := by
      rw [ht, hs]; rfl
    refine ⟨"<NotificationMessage - ",
      " " ++ recipClause m.recipients ++ " " ++ senderClause m.sender
        ++ " at " ++ toString m.timestamp ++ ">", ?_⟩
    simp only [NotificationMessage.repr, hr, String.append_assoc]
  · intro hnone
    rw [NotificationMessage.repr, hnone]

/-- Witness for C3: the concrete `gp2`/`create` notification renders the
phrase, and the unmapped `call_log`/`create` pair raises. -/
theorem notification_phrase_lookup_witness :
    (mNotif.type = "gp2" ∧ mNotif.subtype = "create" ∧
      ∃ a b, NotificationMessage.repr mNotif =
        Except.ok (a ++ "Created group" ++ b)) ∧
    (readable mBadNotif.type mBadNotif.subtype = none ∧
      NotificationMessage.repr mBadNotif = Except.error PyErr.keyError) :=
  ⟨⟨rfl, rfl, (notification_phrase_lookup mNotif).1 rfl rfl⟩,
   ⟨by decide, (notification_phrase_lookup mBadNotif).2 (by decide)⟩⟩

/-- C4: the spec requires a defined fallback extension for an unknown MIME
type, but the code joins the content hash with `None` and raises a
`TypeError`: at the concrete media record `rBadMime` (whose MIME type has
no extension mapping) the constructor fails instead of producing a
filename. -/
theorem media_filename_unknown_mime_raises :
    guess_extension rBadMime.mime = none ∧
    factory_message rBadMime = MessageVariant.media ∧
    MediaMessage.init guess_extension rBadMime 0 =
      Except.error PyErr.typeError := by
  decide

/-- C5 counterexample: the constructed media message with content `QR==`
(valid but non-canonical base64) saves as the single byte 65, which
re-encodes to `QQ==`, not the original content string. -/
theorem save_media_roundtrip_countereg :
    MediaMessage.init guess_extension rMediaA 0 = Except.ok mQR ∧
    mQR.content = some "QR==" ∧
    MediaMessage.save_media mQR = Except.ok [65] ∧
    b64encode [65] ≠ "QR==" := by
  decide

/-- C5 (amended): when the content string is the canonical base64 encoding
of a byte sequence, `save_media` writes exactly those bytes and re-encoding
them reproduces the content string exactly. -/
theorem save_media_roundtrip (m : MediaMessage) (bs : List Nat)
    (hbytes : ∀ b ∈ bs, b < 256) (hc : m.content = some (b64encode bs)) :
    MediaMessage.save_media m = Except.ok bs ∧
    some (b64encode bs) = m.content := by
  refine ⟨?_, hc.symm⟩
  rw [MediaMessage.save_media, hc]
  simp only [b64decode_b64encode hbytes]

/-- Witness for C5 (amended): the media message whose content is `TWFu`,
the canonical encoding of the bytes 77, 97, 110. -/
theorem save_media_roundtrip_witness :
    (∀ b ∈ [77, 97, 110], b < 256) ∧
    mB64.content = some (b64encode [77, 97, 110]) ∧
    MediaMessage.save_media mB64 = Except.ok [77, 97, 110] :=
  ⟨by decide, by decide,
   (save_media_roundtrip mB64 [77, 97, 110] (by decide) (by decide)).1⟩

/-- C8: a successfully constructed notification has a `recipients`
attribute exactly when the raw list is non-empty, the attribute holds the
in-order element-wise resolution of the raw ids through the driver, and a
resolution failure propagates out of the constructor. -/
theorem notification_recipients_resolution
    (drv : String → Except PyErr Contact) (r : RawRecord) :
    (∀ m : NotificationMessage, NotificationMessage.init drv r = Except.ok m →
      (m.recipients = none ↔ r.recipients = []) ∧
      (∀ cs, m.recipients = some cs →
        resolveAll drv r.recipients = Except.ok cs)) ∧
    (∀ e, resolveAll drv r.recipients = Except.error e →
      NotificationMessage.init drv r = Except.error e) := by
  constructor
  · intro m hm
    obtain ⟨recip, hmeq, hcase⟩ := notif_init_ok hm
    have hrecip : m.recipients = recip := by rw [hmeq]
    rcases hcase with ⟨hnone, hempty⟩ | ⟨cs, hsome, hres, hne⟩
    · constructor
      · rw [hrecip, hnone, hempty]
        simp
      · intro cs hcs
        rw [hrecip, hnone] at hcs
        exact absurd hcs (by simp)
    · constructor
      · rw [hrecip, hsome]
        simp [hne]
      · intro cs2 hcs2
        rw [hrecip, hsome] at hcs2
        exact Option.some.inj hcs2 ▸ hres
  · intro e he
    cases hrec : r.recipients with
    | nil =>
      rw [hrec] at he
      exact absurd he (by simp [resolveAll])
    | cons x xs =>
      rw [hrec] at he
      rw [NotificationMessage.init, hrec]
      simp only [he]

/-- Witness for C8: the group notification resolves both recipient ids in
order with the resolving driver, and the failing driver's error propagates
out of the constructor. -/
theorem notification_recipients_resolution_witness :
    NotificationMessage.init drvOk rNotif = Except.ok mNotif ∧
    (mNotif.recipients = none ↔ rNotif.recipients = []) ∧
    resolveAll drvFail rNotif.recipients = Except.error PyErr.keyError ∧
    NotificationMessage.init drvFail rNotif = Except.error PyErr.keyError :=
  ⟨by decide,
   ((notification_recipients_resolution drvOk rNotif).1 mNotif (by decide)).1,
   by decide,
   (notification_recipients_resolution drvFail rNotif).2 PyErr.keyError
     (by decide)⟩
